import Mathlib

/-!
Verification of the ccl Result error-handling core of the repository
(src/lib/ccl/include/ccl/result.hpp together with panic.hpp).

Two models are developed:

* a value-level model of the public facade: Result is a tagged sum of
  an ok payload and an err payload, and the extraction operations that
  may panic return in the exception monad, the panic message recorded;
  since the C++ panic primitive diverges, an error value carries no
  success payload at all;

* a storage-level model of detail::ResultBase: each union member is a
  Slot that is either dead (no object lives in that storage), live with
  a value, or moved-from; the special member operations additionally
  report the list of construction / destruction / assignment events
  they perform, so that lifetime claims become facts about the trace.
-/

namespace ccl

/-- Panic record: the free function in panic.hpp receives a message and
a call-site location and never returns.  Only the message is observable
in the claims, so the location is not modelled. -/
structure Panic where
  msg : String
  deriving DecidableEq

/-- Model of panic(msg): builds the record carried on the diverging path. -/
def panic (msg : String) : Panic :=
  { msg := msg }

/-- Model of the wrapper Ok, a thin carrier of one T (result.hpp 56-80). -/
structure Ok (T : Type) where
  value : T
  deriving DecidableEq

/-- Model of the wrapper Err, a thin carrier of one E (result.hpp 82-106). -/
structure Err (E : Type) where
  value : E
  deriving DecidableEq

/-- Value-level model of Result<T, E>: a tagged union holding either a
success payload of type T or an error payload of type E. -/
inductive Result (T E : Type) where
  | ok (t : T)
  | err (e : E)
  deriving DecidableEq

variable {T E : Type}

/-- Converting constructor Result(Ok<T>&&): absorbs the Ok payload. -/
def Result.fromOk (o : Ok T) : Result T E :=
  Result.ok o.value

/-- Converting constructor Result(Err<E>&&): absorbs the Err payload. -/
def Result.fromErr (e : Err E) : Result T E :=
  Result.err e.value

/-- Result::is_ok, a pure discriminant read. -/
def Result.is_ok : Result T E → Bool
  | Result.ok _ => true
  | Result.err _ => false

/-- Result::is_err returns the negated discriminant. -/
def Result.is_err (self : Result T E) : Bool :=
  !self.is_ok

/-- Result::unwrap_impl (result.hpp 310-316): panics with the fixed
message "unwrap" on the err variant, otherwise yields the ok payload. -/
def Result.unwrap_impl : Result T E → Except Panic T
  | Result.ok t => Except.ok t
  | Result.err _ => Except.error (panic ("unwrap"))

/-- Result::unwrap_err_impl (result.hpp 318-324): panics with the fixed
message "unwrap_err" on the ok variant, otherwise yields the error. -/
def Result.unwrap_err_impl : Result T E → Except Panic E
  | Result.ok _ => Except.error (panic ("unwrap_err"))
  | Result.err e => Except.ok e

/-- Result::expect_impl (result.hpp 332-338): as unwrap, but the panic
carries the caller-supplied message. -/
def Result.expect_impl (self : Result T E) (msg : String) : Except Panic T :=
  match self with
  | Result.ok t => Except.ok t
  | Result.err _ => Except.error (panic msg)

/-- Result::unwrap_or_else_impl (result.hpp 326-330), the ternary
returning the ok payload or the value of f on the error payload.  The
second component counts the invocations of the fallback f. -/
def Result.unwrap_or_else_impl (self : Result T E) (f : E → T) : T × Nat :=
  match self with
  | Result.ok t => (t, 0)
  | Result.err e => (f e, 1)

/-- Public Result::unwrap; all four reference-qualified overloads route
to unwrap_impl. -/
def Result.unwrap (self : Result T E) : Except Panic T :=
  self.unwrap_impl

/-- Public Result::unwrap_err. -/
def Result.unwrap_err (self : Result T E) : Except Panic E :=
  self.unwrap_err_impl

/-- Public Result::expect. -/
def Result.expect (self : Result T E) (msg : String) : Except Panic T :=
  self.expect_impl msg

/-- Public Result::unwrap_or_else, returning the success-typed value. -/
def Result.unwrap_or_else (self : Result T E) (f : E → T) : T :=
  (self.unwrap_or_else_impl f).1

/-- Lifetime state of one union member storage of detail::ResultBase:
no object constructed there, a live object with a known value, or a
live object whose value is unspecified because it was moved from. -/
inductive Slot (α : Type) where
  | dead
  | live (a : α)
  | movedFrom
  deriving DecidableEq

variable {α : Type}

/-- Reading a payload out of a slot the way std::forward does inside
the special members: the first component is the value transferred to
the destination, the second is the source slot afterwards.  isMove
selects the rvalue overload; trivMove records a trivially movable
payload type, whose move is a byte copy leaving the source intact.
Reading dead storage is a lifetime violation, unreachable from states
satisfying the invariant, and is modelled as dead. -/
def Slot.read (isMove : Bool) (trivMove : Bool) : Slot α → Slot α × Slot α
  | Slot.dead => (Slot.dead, Slot.dead)
  | Slot.live a =>
      if isMove && !trivMove then (Slot.live a, Slot.movedFrom)
      else (Slot.live a, Slot.live a)
  | Slot.movedFrom => (Slot.movedFrom, Slot.movedFrom)

/-- Whether an object is constructed in the slot (live or moved-from). -/
def Slot.isCon : Slot α → Bool
  | Slot.dead => false
  | Slot.live _ => true
  | Slot.movedFrom => true

/-- Whether the slot holds no object. -/
def Slot.isDead : Slot α → Bool
  | Slot.dead => true
  | Slot.live _ => false
  | Slot.movedFrom => false

/-- The specified value held by the slot, if any. -/
def Slot.toVal : Slot α → Option α
  | Slot.dead => none
  | Slot.live a => some a
  | Slot.movedFrom => none

/-- Triviality flags of the two payload types: dtorT and dtorE record
std::is_trivially_destructible (the destructor calls are skipped by the
if-constexpr guards); moveT and moveE record a trivial move, which is a
byte copy leaving the source unchanged. -/
structure Triv where
  dtorT : Bool
  dtorE : Bool
  moveT : Bool
  moveE : Bool
  deriving DecidableEq

/-- Fully non-trivial payload types, the instantiation the general path
ResultBase<T, E, false> is written for. -/
def ntv : Triv :=
  { dtorT := false, dtorE := false, moveT := false, moveE := false }

/-- Fully trivial payload types. -/
def tvAll : Triv :=
  { dtorT := true, dtorE := true, moveT := true, moveE := true }

/-- Observable payload lifetime events, as counted by an instrumented
test type: construction, destruction and in-place assignment of the T
payload and of the E payload. -/
inductive Ev where
  | conT
  | conE
  | desT
  | desE
  | asgT
  | asgE
  deriving DecidableEq

/-- Storage-level model of detail::ResultBase: the union of the two
payload storages plus the boolean discriminant is_ok_. -/
structure ResultBase (T E : Type) where
  ok : Slot T
  err : Slot E
  is_ok_ : Bool
  deriving DecidableEq

/-- Constructor ResultBase(Ok<T>&&) (result.hpp 153-154): the T storage
becomes live, the E storage is never touched, discriminant true. -/
def ResultBase.fromOk (t : T) : ResultBase T E :=
  { ok := Slot.live t, err := Slot.dead, is_ok_ := true }

/-- Constructor ResultBase(Err<E>&&) (result.hpp 156-159). -/
def ResultBase.fromErr (e : E) : ResultBase T E :=
  { ok := Slot.dead, err := Slot.live e, is_ok_ := false }

/-- State invariant of the storage core: the storage selected by the
discriminant holds a constructed object (possibly moved-from) and the
other storage holds no object. -/
def ResultBase.inv (st : ResultBase T E) : Bool :=
  if st.is_ok_ then st.ok.isCon && st.err.isDead
  else st.err.isCon && st.ok.isDead

/-- Member construct(R&& other) (result.hpp 194-202): copies the
discriminant, then placement-constructs the matching payload of this
from the source payload; the non-matching storage stays untouched.
Returns the constructed object, the source afterwards, and the trace.
isMove is true when called from the move constructor. -/
def ResultBase.construct (tv : Triv) (isMove : Bool) (src : ResultBase T E) :
    ResultBase T E × ResultBase T E × List Ev :=
  if src.is_ok_ then
    let r := src.ok.read isMove tv.moveT
    ({ ok := r.1, err := Slot.dead, is_ok_ := true },
      { src with ok := r.2 }, [Ev.conT])
  else
    let r := src.err.read isMove tv.moveE
    ({ ok := Slot.dead, err := r.1, is_ok_ := false },
      { src with err := r.2 }, [Ev.conE])

/-- Member assign(R&& other) (result.hpp 204-227): four cases on the
pair of discriminants.  Same variant: the payload is assigned in place.
Different variants: the old payload of this is destroyed (unless its
destructor is trivial), the new payload is placement-constructed from
the source, and the discriminant is flipped.  Returns the destination
and source afterwards, plus the trace. -/
def ResultBase.assign (tv : Triv) (isMove : Bool)
    (dst src : ResultBase T E) :
    ResultBase T E × ResultBase T E × List Ev :=
  if src.is_ok_ then
    if dst.is_ok_ then
      let r := src.ok.read isMove tv.moveT
      ({ dst with ok := r.1 }, { src with ok := r.2 }, [Ev.asgT])
    else
      let r := src.ok.read isMove tv.moveT
      ({ ok := r.1, err := Slot.dead, is_ok_ := true },
        { src with ok := r.2 },
        (if tv.dtorE then [] else [Ev.desE]) ++ [Ev.conT])
  else
    if dst.is_ok_ then
      let r := src.err.read isMove tv.moveE
      ({ ok := Slot.dead, err := r.1, is_ok_ := false },
        { src with err := r.2 },
        (if tv.dtorT then [] else [Ev.desT]) ++ [Ev.conE])
    else
      let r := src.err.read isMove tv.moveE
      ({ dst with err := r.1 }, { src with err := r.2 }, [Ev.asgE])

/-- Destructor of ResultBase (result.hpp 182-192): destroys the live
payload only, guarded by the triviality of its destructor.  Returns the
trace of destructor events. -/
def ResultBase.destruct (tv : Triv) (st : ResultBase T E) : List Ev :=
  if st.is_ok_ then
    if tv.dtorT then [] else [Ev.desT]
  else
    if tv.dtorE then [] else [Ev.desE]

/-- Result::unwrap on an rvalue (unwrap_impl with Self = Result&&):
panics with "unwrap" on the err variant; otherwise the caller moves the
payload out of the ok storage.  Returns the extracted slot value and
the Result afterwards. -/
def ResultBase.unwrap_move (st : ResultBase T E) :
    Except Panic (Slot T) × ResultBase T E :=
  if st.is_ok_ then
    let r := st.ok.read true false
    (Except.ok r.1, { st with ok := r.2 })
  else
    (Except.error (panic ("unwrap")), st)

/-- Result::unwrap_err on an rvalue: symmetric to unwrap_move. -/
def ResultBase.unwrap_err_move (st : ResultBase T E) :
    Except Panic (Slot E) × ResultBase T E :=
  if st.is_ok_ then
    (Except.error (panic ("unwrap_err")), st)
  else
    let r := st.err.read true false
    (Except.ok r.1, { st with err := r.2 })

/-- Result::expect on an rvalue: as unwrap_move but the panic carries
the caller-supplied message. -/
def ResultBase.expect_move (st : ResultBase T E) (msg : String) :
    Except Panic (Slot T) × ResultBase T E :=
  if st.is_ok_ then
    let r := st.ok.read true false
    (Except.ok r.1, { st with ok := r.2 })
  else
    (Except.error (panic msg), st)

/-- Result::unwrap_or_else on a const lvalue (result.hpp 283-285 and
326-330): returns an owned T by value, the chosen payload copied out of
untouched storage; the fallback is invoked exactly when the variant is
err.  Components: the returned value (none when the copied payload was
unspecified), the Result afterwards, and the invocation count of f. -/
def ResultBase.unwrap_or_else_const (st : ResultBase T E) (f : E → T) :
    Option T × ResultBase T E × Nat :=
  if st.is_ok_ then
    (st.ok.toVal, st, 0)
  else
    ((st.err.toVal).map f, st, 1)

/-- Result::unwrap_or_else on an rvalue (result.hpp 288-291): as the
const overload but the chosen payload is moved out of its storage. -/
def ResultBase.unwrap_or_else_move (st : ResultBase T E) (f : E → T) :
    Option T × ResultBase T E × Nat :=
  if st.is_ok_ then
    let r := st.ok.read true false
    (r.1.toVal, { st with ok := r.2 }, 0)
  else
    let r := st.err.read true false
    ((r.1.toVal).map f, { st with err := r.2 }, 1)

/-- Operation language over a store of Result objects, used to compare
the trivial specialization of the storage core with the general path:
construction from Ok or Err pushes a new object; copy and move
construction push a copy of an existing object; copy and move
assignment act between two existing objects; destruct ends an object.
Operations naming destroyed or out-of-range objects are skipped. -/
inductive Op (T E : Type) where
  | mkOk (t : T)
  | mkErr (e : E)
  | copyCon (i : Nat)
  | moveCon (i : Nat)
  | copyAsn (i j : Nat)
  | moveAsn (i j : Nat)
  | destruct (i : Nat)

/-- Store of Result objects; a destroyed object is none. -/
abbrev Store (T E : Type) : Type :=
  List (Option (ResultBase T E))

/-- The live object stored at position i, if i is in range and the
object there has not been destroyed. -/
def objAt (s : Store T E) (i : Nat) : Option (ResultBase T E) :=
  match List.get? s i with
  | some (some r) => some r
  | _ => none

/-- Assignment step of the general path: the explicit four-case assign
runs between objects i and j; an aliased assignment (i = j) updates the
single object with the destination component of assign applied to
itself, matching the unguarded self-assignment of the source. -/
def asnGen (mv : Bool) (i j : Nat) (s : Store T E) : Store T E :=
  match objAt s i, objAt s j with
  | some d, some r =>
      if i = j then
        List.set s i (some (ResultBase.assign tvAll mv d r).1)
      else
        List.set (List.set s j (some (ResultBase.assign tvAll mv d r).2.1)) i
          (some (ResultBase.assign tvAll mv d r).1)
  | _, _ => s

/-- Assignment step of the trivial specialization: the defaulted
operator copies the whole source object over the destination. -/
def asnTriv (i j : Nat) (s : Store T E) : Store T E :=
  match objAt s i, objAt s j with
  | some _, some r => List.set s i (some r)
  | _, _ => s

/-- One step of the general path ResultBase<T, E, false> instantiated
at fully trivial payload types: every special member runs the explicit
construct / assign / destructor algorithm of result.hpp 161-227 with
the if-constexpr guards taken (destructor calls skipped, moves done as
byte copies).  Operations naming missing objects are skipped. -/
def stepGen (s : Store T E) : Op T E → Store T E
  | Op.mkOk t => s ++ [some (ResultBase.fromOk t)]
  | Op.mkErr e => s ++ [some (ResultBase.fromErr e)]
  | Op.copyCon i =>
      match objAt s i with
      | some r => s ++ [some (ResultBase.construct tvAll false r).1]
      | none => s
  | Op.moveCon i =>
      match objAt s i with
      | some r =>
          List.set s i (some (ResultBase.construct tvAll true r).2.1)
            ++ [some (ResultBase.construct tvAll true r).1]
      | none => s
  | Op.copyAsn i j => asnGen false i j s
  | Op.moveAsn i j => asnGen true i j s
  | Op.destruct i =>
      match objAt s i with
      | some _ => List.set s i none
      | none => s

/-- One step of the trivial specialization ResultBase<T, E, true>
(result.hpp 122-142): only the converting constructors are user
provided; the four copy and move members are implicitly defaulted and
copy the whole object, union bytes plus discriminant, and the defaulted
destructor does nothing beyond ending the object lifetime. -/
def stepTriv (s : Store T E) : Op T E → Store T E
  | Op.mkOk t => s ++ [some (ResultBase.fromOk t)]
  | Op.mkErr e => s ++ [some (ResultBase.fromErr e)]
  | Op.copyCon i =>
      match objAt s i with
      | some r => s ++ [some r]
      | none => s
  | Op.moveCon i =>
      match objAt s i with
      | some r => s ++ [some r]
      | none => s
  | Op.copyAsn i j => asnTriv i j s
  | Op.moveAsn i j => asnTriv i j s
  | Op.destruct i =>
      match objAt s i with
      | some _ => List.set s i none
      | none => s

/-- Running a whole operation sequence under the general path, starting
from the empty store. -/
def runGen (ops : List (Op T E)) : Store T E :=
  List.foldl stepGen [] ops

/-- Running the same sequence under the trivial specialization. -/
def runTriv (ops : List (Op T E)) : Store T E :=
  List.foldl stepTriv [] ops

/-- Observational agreement of one object between the two paths: same
discriminant and same live payload value.  The inactive storage may
differ: the byte copy duplicates its bytes while the general path
leaves it dead. -/
def obsRel (g t : ResultBase T E) : Prop :=
  g.is_ok_ = t.is_ok_
    ∧ (g.is_ok_ = true → g.ok = t.ok)
    ∧ (g.is_ok_ = false → g.err = t.err)

/-- Lifting of obsRel to possibly destroyed objects. -/
def obsRelO : Option (ResultBase T E) → Option (ResultBase T E) → Prop
  | none, none => True
  | some g, some t => obsRel g t
  | _, _ => False

/-- Lifting of obsRel to whole stores, pointwise. -/
def storesRel (g t : Store T E) : Prop :=
  List.Forall₂ obsRelO g t

/-- Reading a slot never alters the value transferred to the caller. -/
theorem Slot.read_fst (m b : Bool) (s : Slot α) : (s.read m b).1 = s := by
  cases s with
  | dead => rfl
  | live a =>
      simp only [Slot.read]
      split <;> rfl
  | movedFrom => rfl

/-- The copy overloads leave the source slot untouched. -/
theorem Slot.read_copy (b : Bool) (s : Slot α) : s.read false b = (s, s) := by
  cases s <;> simp [Slot.read]

/-- A trivial move is a byte copy: the source slot is untouched. -/
theorem Slot.read_triv (m : Bool) (s : Slot α) : s.read m true = (s, s) := by
  cases s <;> simp [Slot.read]

/-- C1: for every pair of types T, E and every t and e, the Result
built from Ok t satisfies is_ok, not is_err, and unwrap returns t; the
Result built from Err e satisfies is_err and unwrap_err returns e. -/
theorem c1_construction_accessors (T E : Type) (t : T) (e : E) :
    (Result.fromOk (Ok.mk t) : Result T E).is_ok = true
    ∧ (Result.fromOk (Ok.mk t) : Result T E).is_err = false
    ∧ (Result.fromOk (Ok.mk t) : Result T E).unwrap = Except.ok t
    ∧ (Result.fromErr (Err.mk e) : Result T E).is_err = true
    ∧ (Result.fromErr (Err.mk e) : Result T E).unwrap_err = Except.ok e :=
  ⟨rfl, rfl, rfl, rfl, rfl⟩

/-- C2: an extraction panics exactly on the wrong variant and the panic
is modelled as the diverging branch of the exception monad, carrying no
success value: unwrap panics precisely on the err variant with the
fixed message "unwrap", unwrap_err panics precisely on the ok variant
with "unwrap_err", and expect panics precisely on the err variant with
exactly the caller-supplied message. -/
theorem c2_panic_on_wrong_variant (T E : Type) (r : Result T E) (m : String) :
    (r.unwrap.isOk = r.is_ok)
    ∧ (r.is_err = true → r.unwrap = Except.error (panic ("unwrap")))
    ∧ (r.unwrap_err.isOk = r.is_err)
    ∧ (r.is_ok = true → r.unwrap_err = Except.error (panic ("unwrap_err")))
    ∧ ((r.expect m).isOk = r.is_ok)
    ∧ (r.is_err = true → r.expect m = Except.error (panic m)) := by
  cases r <;>
    simp [Result.unwrap, Result.unwrap_err, Result.expect,
      Result.unwrap_impl, Result.unwrap_err_impl, Result.expect_impl,
      Result.is_ok, Result.is_err, Except.isOk, Except.toBool]

/-- Closed instance of C2 at concrete inputs: the err variant makes
unwrap panic with "unwrap", the ok variant makes unwrap_err panic with
"unwrap_err", and expect propagates the custom message. -/
theorem c2_panic_on_wrong_variant_witness :
    (Result.err 7 : Result Nat Nat).unwrap = Except.error (panic ("unwrap"))
    ∧ (Result.ok 7 : Result Nat Nat).unwrap_err
        = Except.error (panic ("unwrap_err"))
    ∧ (Result.err 7 : Result Nat Nat).expect ("custom")
        = Except.error (panic ("custom")) :=
  ⟨(c2_panic_on_wrong_variant Nat Nat (Result.err 7) ("custom")).2.1 (by decide),
    (c2_panic_on_wrong_variant Nat Nat (Result.ok 7) ("custom")).2.2.2.1 (by decide),
    (c2_panic_on_wrong_variant Nat Nat (Result.err 7) ("custom")).2.2.2.2.2 (by decide)⟩

/-- C3: unwrap_or_else returns the success payload without invoking the
fallback on the ok variant and returns the fallback applied to the
error payload on the err variant; in particular on Result Int Int with
the negating fallback it maps Err (-1) to 1 and Ok 1 to 1 with zero
fallback invocations. -/
theorem c3_unwrap_or_else (T E : Type) (r : Result T E) (f : E → T) :
    (∀ t, r = Result.ok t → r.unwrap_or_else_impl f = (t, 0))
    ∧ (∀ e, r = Result.err e → r.unwrap_or_else_impl f = (f e, 1))
    ∧ (Result.err (-1) : Result Int Int).unwrap_or_else (fun e => e * (-1)) = 1
    ∧ (Result.ok 1 : Result Int Int).unwrap_or_else_impl (fun e => e * (-1))
        = (1, 0) := by
  refine ⟨?_, ?_, by decide, by decide⟩
  · intro t ht
    subst ht
    rfl
  · intro e he
    subst he
    rfl

/-- Closed instance of C3: at Ok 5 the fallback is not invoked and 5 is
returned; at Err 4 the fallback runs once. -/
theorem c3_unwrap_or_else_witness :
    (Result.ok 5 : Result Nat Nat).unwrap_or_else_impl (fun e => e + 1) = (5, 0)
    ∧ (Result.err 4 : Result Nat Nat).unwrap_or_else_impl (fun e => e + 1)
        = (5, 1) :=
  ⟨(c3_unwrap_or_else Nat Nat (Result.ok 5) (fun e => e + 1)).1 5 rfl,
    (c3_unwrap_or_else Nat Nat (Result.err 4) (fun e => e + 1)).2.1 4 rfl⟩

/-- Reading a slot leaves a constructed object in the source exactly
when one was there before: a copy leaves it live, a move leaves it
moved-from, both constructed. -/
theorem Slot.read_snd_con (m b : Bool) (s : Slot α) :
    ((s.read m b).2).isCon = s.isCon := by
  cases s with
  | dead => rfl
  | live a =>
      simp only [Slot.read]
      split <;> rfl
  | movedFrom => rfl

/-- C4: the storage invariant — the storage selected by the
discriminant holds the one constructed payload and the other storage
holds none — is established by construction from Ok or Err and is
preserved, on both objects involved, by copy and move construction,
copy and move assignment and move extraction; the destructor destroys
exactly the live payload and never the inactive storage. -/
theorem c4_invariant_preserved (T E : Type) (t : T) (e : E)
    (m : Bool) (dst src st : ResultBase T E) :
    ((ResultBase.fromOk t : ResultBase T E).inv = true)
    ∧ ((ResultBase.fromErr e : ResultBase T E).inv = true)
    ∧ (src.inv = true →
        (ResultBase.construct ntv m src).1.inv = true
        ∧ (ResultBase.construct ntv m src).2.1.inv = true)
    ∧ (dst.inv = true → src.inv = true →
        (ResultBase.assign ntv m dst src).1.inv = true
        ∧ (ResultBase.assign ntv m dst src).2.1.inv = true)
    ∧ (st.inv = true → st.unwrap_move.2.inv = true)
    ∧ (st.destruct ntv = [if st.is_ok_ then Ev.desT else Ev.desE]) := by
  obtain ⟨sok, serr, sflag⟩ := src
  obtain ⟨dok, derr, dflag⟩ := dst
  obtain ⟨tok, terr, tflag⟩ := st
  refine ⟨rfl, rfl, ?_, ?_, ?_, ?_⟩
  · intro h
    cases sflag <;>
      simp_all [ResultBase.construct, ResultBase.inv, ntv,
        Slot.read_fst, Slot.read_snd_con, Slot.isDead]
  · intro h1 h2
    cases sflag <;> cases dflag <;>
      simp_all [ResultBase.assign, ResultBase.inv, ntv,
        Slot.read_fst, Slot.read_snd_con, Slot.isDead]
  · intro h
    cases tflag <;>
      simp_all [ResultBase.unwrap_move, ResultBase.inv,
        Slot.read_fst, Slot.read_snd_con, Slot.isDead]
  · cases tflag <;> simp [ResultBase.destruct, ntv]

/-- Closed instance of C4: assigning an err Result over an ok Result of
Nat payloads keeps the invariant on both objects. -/
theorem c4_invariant_preserved_witness :
    (ResultBase.assign ntv false (ResultBase.fromOk 1)
        (ResultBase.fromErr 2 : ResultBase Nat Nat)).1.inv = true
    ∧ (ResultBase.assign ntv false (ResultBase.fromOk 1)
        (ResultBase.fromErr 2 : ResultBase Nat Nat)).2.1.inv = true :=
  (c4_invariant_preserved Nat Nat 1 2 false (ResultBase.fromOk 1)
      (ResultBase.fromErr 2) (ResultBase.fromOk 3)).2.2.2.1
    (by decide) (by decide)

/-- C5: for copy and move assignment alike, when the two objects hold
the same variant the payload is assigned in place — the trace is a
single in-place assignment event, no destruction or construction, and
the discriminant is unchanged; when they hold different variants the
trace is exactly one destruction of the old payload followed by exactly
one construction of the new payload, and the discriminant is flipped to
the source variant. -/
theorem c5_assign_cases (T E : Type) (m : Bool) (dst src : ResultBase T E) :
    (dst.is_ok_ = src.is_ok_ →
        (ResultBase.assign ntv m dst src).2.2
            = [if src.is_ok_ then Ev.asgT else Ev.asgE]
        ∧ (ResultBase.assign ntv m dst src).1.is_ok_ = dst.is_ok_)
    ∧ (¬dst.is_ok_ = src.is_ok_ →
        (ResultBase.assign ntv m dst src).2.2
            = (if dst.is_ok_ then [Ev.desT, Ev.conE] else [Ev.desE, Ev.conT])
        ∧ (ResultBase.assign ntv m dst src).1.is_ok_ = src.is_ok_) := by
  obtain ⟨sok, serr, sflag⟩ := src
  obtain ⟨dok, derr, dflag⟩ := dst
  cases sflag <;> cases dflag <;> simp [ResultBase.assign, ntv]

/-- Closed instance of C5: assigning an err source over an ok
destination destroys one T and constructs one E, in that order. -/
theorem c5_assign_cases_witness :
    (ResultBase.assign ntv false (ResultBase.fromOk 1)
        (ResultBase.fromErr 2 : ResultBase Nat Nat)).2.2
      = [Ev.desT, Ev.conE] :=
  ((c5_assign_cases Nat Nat false (ResultBase.fromOk 1)
      (ResultBase.fromErr 2)).2 (by decide)).1

/-- C6: the unguarded self-assignment r = r takes the matching-variant
branch of the four-case logic, so it performs a single in-place payload
assignment and leaves the discriminant and the payload unchanged.  The
slot model assigns the payload value of the source, which for an
aliased source is the destination value itself: this is exactly the
hypothesis that the payload type handles self-assignment correctly. -/
theorem c6_self_assignment (T E : Type) (st : ResultBase T E) :
    ResultBase.assign ntv false st st
      = (st, st, [if st.is_ok_ then Ev.asgT else Ev.asgE]) := by
  obtain ⟨sok, serr, flag⟩ := st
  cases flag <;> simp [ResultBase.assign, ntv, Slot.read_copy]

/-- C7: copy construction and copy assignment produce an object with
the source variant and the source payload value, and leave the source
object exactly as it was before the copy. -/
theorem c7_copy_preserves_source (T E : Type) (dst src : ResultBase T E) :
    ((ResultBase.construct ntv false src).1.is_ok_ = src.is_ok_)
    ∧ (src.is_ok_ = true →
        (ResultBase.construct ntv false src).1.ok = src.ok)
    ∧ (src.is_ok_ = false →
        (ResultBase.construct ntv false src).1.err = src.err)
    ∧ ((ResultBase.construct ntv false src).2.1 = src)
    ∧ ((ResultBase.assign ntv false dst src).1.is_ok_ = src.is_ok_)
    ∧ (src.is_ok_ = true →
        (ResultBase.assign ntv false dst src).1.ok = src.ok)
    ∧ (src.is_ok_ = false →
        (ResultBase.assign ntv false dst src).1.err = src.err)
    ∧ ((ResultBase.assign ntv false dst src).2.1 = src) := by
  obtain ⟨sok, serr, sflag⟩ := src
  obtain ⟨dok, derr, dflag⟩ := dst
  cases sflag <;> cases dflag <;>
    simp [ResultBase.construct, ResultBase.assign, ntv, Slot.read_copy]

/-- Closed instance of C7: copying an ok Result of Nat payloads gives
an ok object holding the same live value, and the source is unchanged. -/
theorem c7_copy_preserves_source_witness :
    (ResultBase.construct ntv false
        (ResultBase.fromOk 3 : ResultBase Nat Nat)).1.ok = Slot.live 3
    ∧ (ResultBase.construct ntv false
        (ResultBase.fromOk 3 : ResultBase Nat Nat)).2.1
      = ResultBase.fromOk 3 :=
  ⟨(c7_copy_preserves_source Nat Nat (ResultBase.fromErr 9)
      (ResultBase.fromOk 3)).2.1 rfl,
    (c7_copy_preserves_source Nat Nat (ResultBase.fromErr 9)
      (ResultBase.fromOk 3)).2.2.2.1⟩

/-- C8: a move extraction on the matching variant leaves the
discriminant unchanged, keeps the object destructible (the invariant
still holds), puts the extracted storage into the moved-from state, and
a second extraction on the same object is well formed — it does not
panic — but yields the unspecified moved-from value. -/
theorem c8_move_extraction (T E : Type) (st : ResultBase T E) (m : String) :
    (st.unwrap_move.2.is_ok_ = st.is_ok_)
    ∧ (st.unwrap_err_move.2.is_ok_ = st.is_ok_)
    ∧ ((st.expect_move m).2.is_ok_ = st.is_ok_)
    ∧ (st.inv = true → st.unwrap_move.2.inv = true)
    ∧ (st.inv = true → st.unwrap_err_move.2.inv = true)
    ∧ (st.inv = true → (st.expect_move m).2.inv = true)
    ∧ (st.is_ok_ = true → st.inv = true →
        st.unwrap_move.2.ok = Slot.movedFrom
        ∧ st.unwrap_move.2.unwrap_move
            = (Except.ok Slot.movedFrom, st.unwrap_move.2))
    ∧ (st.is_ok_ = false → st.inv = true →
        st.unwrap_err_move.2.err = Slot.movedFrom
        ∧ st.unwrap_err_move.2.unwrap_err_move
            = (Except.ok Slot.movedFrom, st.unwrap_err_move.2)) := by
  obtain ⟨tok, terr, tflag⟩ := st
  cases tflag <;> cases tok <;> cases terr <;>
    simp_all [ResultBase.unwrap_move, ResultBase.unwrap_err_move,
      ResultBase.expect_move, ResultBase.inv, Slot.read,
      Slot.isCon, Slot.isDead]

/-- Closed instance of C8: move-extracting from an ok Result of Nat
payloads leaves the discriminant ok and the storage moved-from. -/
theorem c8_move_extraction_witness :
    (ResultBase.fromOk 3 : ResultBase Nat Nat).unwrap_move.2.ok
      = Slot.movedFrom :=
  ((c8_move_extraction Nat Nat (ResultBase.fromOk 3) ("m")).2.2.2.2.2.2.1
    rfl (by decide)).1

/-- C10: unwrap_or_else yields the success value by value — an owned T,
modelled as a value component rather than a view of the storage — in
both the const lvalue and the rvalue overloads; the fallback is invoked
at most once per call, exactly on the err variant; and the const lvalue
overload returns the Result completely unchanged, discriminant and both
storages. -/
theorem c10_unwrap_or_else_frame (T E : Type) (st : ResultBase T E)
    (f : E → T) :
    ((st.unwrap_or_else_const f).2.1 = st)
    ∧ ((st.unwrap_or_else_const f).2.2 ≤ 1)
    ∧ (st.is_ok_ = true → (st.unwrap_or_else_const f).2.2 = 0)
    ∧ (st.is_ok_ = false → (st.unwrap_or_else_const f).2.2 = 1)
    ∧ ((st.unwrap_or_else_move f).2.2 ≤ 1)
    ∧ (st.is_ok_ = true → (st.unwrap_or_else_move f).2.2 = 0)
    ∧ (st.is_ok_ = true → ∀ a, st.ok = Slot.live a →
        (st.unwrap_or_else_const f).1 = some a)
    ∧ (st.is_ok_ = false → ∀ e, st.err = Slot.live e →
        (st.unwrap_or_else_const f).1 = some (f e)) := by
  obtain ⟨tok, terr, tflag⟩ := st
  refine ⟨?_, ?_, ?_, ?_, ?_, ?_, ?_, ?_⟩
  · cases tflag <;> rfl
  · cases tflag <;> simp [ResultBase.unwrap_or_else_const]
  · intro h
    have h2 : tflag = true := h
    subst h2
    rfl
  · intro h
    have h2 : tflag = false := h
    subst h2
    rfl
  · cases tflag <;> simp [ResultBase.unwrap_or_else_move]
  · intro h
    have h2 : tflag = true := h
    subst h2
    rfl
  · intro h a ha
    have h2 : tflag = true := h
    subst h2
    have ha2 : tok = Slot.live a := ha
    subst ha2
    rfl
  · intro h e he
    have h2 : tflag = false := h
    subst h2
    have he2 : terr = Slot.live e := he
    subst he2
    rfl

/-- Closed instance of C10: on a const lvalue ok Result the fallback is
never invoked and the object is returned unchanged. -/
theorem c10_unwrap_or_else_frame_witness :
    ((ResultBase.fromOk 3 : ResultBase Nat Nat).unwrap_or_else_const
        (fun e => e + 1)).2.1 = ResultBase.fromOk 3
    ∧ ((ResultBase.fromOk 3 : ResultBase Nat Nat).unwrap_or_else_const
        (fun e => e + 1)).2.2 = 0 :=
  ⟨(c10_unwrap_or_else_frame Nat Nat (ResultBase.fromOk 3)
      (fun e => e + 1)).1,
    (c10_unwrap_or_else_frame Nat Nat (ResultBase.fromOk 3)
      (fun e => e + 1)).2.2.1 rfl⟩

/-- Observational agreement is reflexive. -/
theorem obsRel_refl (g : ResultBase T E) : obsRel g g :=
  ⟨rfl, fun _ => rfl, fun _ => rfl⟩

/-- Pointwise related stores agree on which positions hold an object,
and the objects held are related. -/
theorem objAt_rel {g t : Store T E} (h : List.Forall₂ obsRelO g t) (i : Nat) :
    (objAt g i = none ∧ objAt t i = none)
    ∨ ∃ ra rb, objAt g i = some ra ∧ objAt t i = some rb ∧ obsRel ra rb := by
  induction h generalizing i with
  | nil => exact Or.inl ⟨rfl, rfl⟩
  | cons h1 h2 ih =>
      cases i with
      | zero =>
          rename_i a b l1 l2
          cases a with
          | none =>
              cases b with
              | none => exact Or.inl ⟨rfl, rfl⟩
              | some rb => exact h1.elim
          | some ra =>
              cases b with
              | none => exact h1.elim
              | some rb => exact Or.inr ⟨ra, rb, rfl, rfl, h1⟩
      | succ n => exact ih n

/-- An inversion of objAt: a present object comes from a some entry. -/
theorem objAt_eq_some {s : Store T E} {i : Nat} {r : ResultBase T E}
    (h : objAt s i = some r) : List.get? s i = some (some r) := by
  unfold objAt at h
  rcases hx : List.get? s i with _ | o
  · rw [hx] at h
    exact Option.noConfusion h
  · cases o with
    | none =>
        rw [hx] at h
        exact Option.noConfusion h
    | some r2 =>
        rw [hx] at h
        have h2 : some r2 = some r := h
        exact congrArg some h2

/-- Setting a position to the value it already holds is the identity. -/
theorem set_get_self {β : Type} {l : List β} {i : Nat} {a : β}
    (h : List.get? l i = some a) : List.set l i a = l := by
  induction l generalizing i with
  | nil => exact Option.noConfusion h
  | cons x xs ih =>
      cases i with
      | zero => exact congrArg (fun y => y :: xs) (Option.some.inj h).symm
      | succ n => exact congrArg (fun ys => x :: ys) (ih h)

/-- Pointwise relatedness is preserved by updating both stores at the
same position with related entries. -/
theorem forall2_set {g t : Store T E} (h : List.Forall₂ obsRelO g t)
    (i : Nat) {a b : Option (ResultBase T E)} (hab : obsRelO a b) :
    List.Forall₂ obsRelO (List.set g i a) (List.set t i b) := by
  induction h generalizing i with
  | nil => exact List.Forall₂.nil
  | cons h1 h2 ih =>
      cases i with
      | zero => exact List.Forall₂.cons hab h2
      | succ n => exact List.Forall₂.cons h1 (ih n)

/-- Pointwise relatedness is preserved by pushing related entries. -/
theorem forall2_push {g t : Store T E} (h : List.Forall₂ obsRelO g t)
    {a b : Option (ResultBase T E)} (hab : obsRelO a b) :
    List.Forall₂ obsRelO (g ++ [a]) (t ++ [b]) := by
  induction h with
  | nil => exact List.Forall₂.cons hab List.Forall₂.nil
  | cons h1 h2 ih => exact List.Forall₂.cons h1 ih

/-- At trivial payload types the explicit construct leaves the source
object untouched: the moves are byte copies. -/
theorem construct_tvAll_src (m : Bool) (g : ResultBase T E) :
    (ResultBase.construct tvAll m g).2.1 = g := by
  obtain ⟨gok, gerr, gflag⟩ := g
  cases gflag <;> simp [ResultBase.construct, tvAll, Slot.read_triv]

/-- At trivial payload types the object built by the explicit construct
agrees observationally with a byte copy of the source. -/
theorem construct_tvAll_rel {g t : ResultBase T E} (h : obsRel g t)
    (m : Bool) : obsRel (ResultBase.construct tvAll m g).1 t := by
  obtain ⟨hf, ho, he⟩ := h
  obtain ⟨gok, gerr, gflag⟩ := g
  cases gflag <;>
    simp_all [ResultBase.construct, tvAll, Slot.read_triv, obsRel]

/-- At trivial payload types the explicit assign leaves the source
object untouched. -/
theorem assign_tvAll_src (m : Bool) (d g : ResultBase T E) :
    (ResultBase.assign tvAll m d g).2.1 = g := by
  obtain ⟨dok, derr, dflag⟩ := d
  obtain ⟨gok, gerr, gflag⟩ := g
  cases gflag <;> cases dflag <;>
    simp [ResultBase.assign, tvAll, Slot.read_triv]

/-- At trivial payload types the destination produced by the explicit
four-case assign agrees observationally with a byte copy of the source
over the destination. -/
theorem assign_tvAll_rel {g t : ResultBase T E} (h : obsRel g t)
    (m : Bool) (d : ResultBase T E) :
    obsRel (ResultBase.assign tvAll m d g).1 t := by
  obtain ⟨hf, ho, he⟩ := h
  obtain ⟨gok, gerr, gflag⟩ := g
  obtain ⟨dok, derr, dflag⟩ := d
  cases gflag <;> cases dflag <;>
    simp_all [ResultBase.assign, tvAll, Slot.read_triv, obsRel]

/-- The assignment steps of the two paths preserve pointwise
relatedness of the stores. -/
theorem asn_rel {g t : Store T E} (h : List.Forall₂ obsRelO g t)
    (mv : Bool) (i j : Nat) :
    List.Forall₂ obsRelO (asnGen mv i j g) (asnTriv i j t) := by
  rcases objAt_rel h i with ⟨hgi, hti⟩ | ⟨da, db, hgi, hti, habi⟩
  · rcases objAt_rel h j with ⟨hgj, htj⟩ | ⟨ra, rb, hgj, htj, habj⟩
    · simp only [asnGen, asnTriv, hgi, hti, hgj, htj]
      exact h
    · simp only [asnGen, asnTriv, hgi, hti, hgj, htj]
      exact h
  · rcases objAt_rel h j with ⟨hgj, htj⟩ | ⟨ra, rb, hgj, htj, habj⟩
    · simp only [asnGen, asnTriv, hgi, hti, hgj, htj]
      exact h
    · simp only [asnGen, asnTriv, hgi, hti, hgj, htj]
      by_cases hij : i = j
      · subst hij
        rw [hgi] at hgj
        rw [hti] at htj
        obtain rfl : da = ra := Option.some.inj hgj
        obtain rfl : db = rb := Option.some.inj htj
        simp only [if_pos rfl]
        exact forall2_set h i (assign_tvAll_rel habi mv da)
      · simp only [if_neg hij]
        rw [assign_tvAll_src, set_get_self (objAt_eq_some hgj)]
        exact forall2_set h i (assign_tvAll_rel habj mv da)

/-- One step of the two paths preserves pointwise relatedness. -/
theorem step_rel {g t : Store T E} (h : List.Forall₂ obsRelO g t)
    (op : Op T E) :
    List.Forall₂ obsRelO (stepGen g op) (stepTriv t op) := by
  cases op with
  | mkOk v => exact forall2_push h (obsRel_refl (ResultBase.fromOk v))
  | mkErr v => exact forall2_push h (obsRel_refl (ResultBase.fromErr v))
  | copyCon i =>
      rcases objAt_rel h i with ⟨hgi, hti⟩ | ⟨ra, rb, hgi, hti, hab⟩
      · simp only [stepGen, stepTriv, hgi, hti]
        exact h
      · simp only [stepGen, stepTriv, hgi, hti]
        exact forall2_push h (construct_tvAll_rel hab false)
  | moveCon i =>
      rcases objAt_rel h i with ⟨hgi, hti⟩ | ⟨ra, rb, hgi, hti, hab⟩
      · simp only [stepGen, stepTriv, hgi, hti]
        exact h
      · simp only [stepGen, stepTriv, hgi, hti]
        rw [construct_tvAll_src, set_get_self (objAt_eq_some hgi)]
        exact forall2_push h (construct_tvAll_rel hab true)
  | copyAsn i j => exact asn_rel h false i j
  | moveAsn i j => exact asn_rel h true i j
  | destruct i =>
      rcases objAt_rel h i with ⟨hgi, hti⟩ | ⟨ra, rb, hgi, hti, hab⟩
      · simp only [stepGen, stepTriv, hgi, hti]
        exact h
      · simp only [stepGen, stepTriv, hgi, hti]
        exact forall2_set h i trivial

/-- Running whole sequences preserves pointwise relatedness. -/
theorem foldl_rel {g t : Store T E} (h : List.Forall₂ obsRelO g t)
    (ops : List (Op T E)) :
    List.Forall₂ obsRelO (List.foldl stepGen g ops)
      (List.foldl stepTriv t ops) := by
  induction ops generalizing g t with
  | nil => exact h
  | cons op rest ih => exact ih (step_rel h op)

/-- C9: for payload types that are trivially copyable, movable and
destructible, the trivial specialization of the storage core — whose
defaulted members copy the whole object as bytes and whose destructor
does nothing — is observationally equivalent to the general explicit
construct / assign / destroy algorithm: any sequence of construction,
copy, move, assignment and destruction operations yields, object by
object, the same discriminant and the same live payload value under
either path. -/
theorem c9_trivial_general_equiv (T E : Type) (ops : List (Op T E)) :
    storesRel (runGen ops) (runTriv ops) :=
  foldl_rel List.Forall₂.nil ops

end ccl
